import Mathlib

/-!
Verification of the `salah` prayer-time library (Rust) against its
natural-language specification.

The development shallowly embeds the library's data model and operations:

* instants (`chrono::DateTime`) become `ℤ` (seconds on a single canonical
  timeline, as all internal comparisons happen in one zone);
* finite `f64` quantities become `ℚ`, with the Rust `as i64` cast embedded
  as truncation toward zero and `f64::round` as round-half-away-from-zero;
* the floating-point positional-astronomy engine (`SolarTime::new`,
  `time_for_solar_angle`, `afternoon`) is abstracted as data: a
  `SolarTimeI` record of the instants it produces, supplied by an
  arbitrary `engine` function, since the claims under study are about the
  schedule arithmetic built on top of those instants;
* fallible code paths (`unwrap` on `None`, `u32` underflow) become
  `Option`, with `none` standing for the Rust panic.
-/

namespace Salah

/-- The floor of a rational, computed from its reduced fraction (kernel
reducible). -/
def ratFloor (q : ℚ) : ℤ := q.num / q.den

/-- Truncation toward zero on rationals; models Rust's `as i64` cast of a
finite `f64` value. -/
def truncToInt (q : ℚ) : ℤ :=
  if 0 ≤ q then ratFloor q else -(ratFloor (-q))

/-- Rounding half away from zero; models `f64::round`. -/
def roundHalfAway (q : ℚ) : ℤ :=
  if 0 ≤ q then ratFloor (q + 1/2) else -(ratFloor (-q + 1/2))

/-- `Normalize::normalized_to_scale` for `f64` (src/astronomy/unit.rs):
`max.mul_add(-(self / max).floor(), *self)`. -/
def normalized_to_scale (x max : ℚ) : ℚ :=
  max * (-(⌊x / max⌋ : ℚ)) + x

/-- Degree-valued angle (src/astronomy/unit.rs, `struct Angle`). -/
structure Angle where
  degrees : ℚ
deriving DecidableEq

namespace Angle

/-- `Angle::new`. -/
def new (degrees : ℚ) : Angle := ⟨degrees⟩

/-- `Angle::unwound`: normalize into `[0, 360)`. -/
def unwound (a : Angle) : Angle :=
  ⟨normalized_to_scale a.degrees 360⟩

/-- `Angle::quadrant_shifted`: shift into `[-180, 180]`. -/
def quadrant_shifted (a : Angle) : Angle :=
  if -180 ≤ a.degrees ∧ a.degrees ≤ 180 then
    a
  else
    ⟨360 * (-(roundHalfAway (a.degrees / 360) : ℚ)) + a.degrees⟩

end Angle

/-- `Rounding` policy enum (src/models/rounding.rs). `NoRounding` embeds the
source's `Rounding::None`. -/
inductive Rounding where
  | Nearest
  | Up
  | NoRounding
deriving DecidableEq

/-- The wall-clock seconds component of an instant (chrono `second()`). -/
def secondOf (t : ℤ) : ℤ := t % 60

/-- `Stride::rounded_minute` for `DateTime` (src/astronomy/unit.rs).
`Nearest` adds `60 - s` seconds when `round(s / 60) == 1` (i.e. `s ≥ 30`)
and subtracts `s` otherwise; `Up` always adds `60 - s`. -/
def rounded_minute (t : ℤ) (rounding : Rounding) : ℤ :=
  let seconds := secondOf t
  match rounding with
  | .Nearest =>
      if roundHalfAway ((seconds : ℚ) / 60) = 1 then t + (60 - seconds)
      else t + (-seconds)
  | .Up => t + (60 - seconds)
  | .NoRounding => t

/-- `Stride::adjust_time`: add the given number of minutes
(src/astronomy/unit.rs). -/
def adjust_time (t : ℤ) (minutes : ℤ) : ℤ :=
  t + minutes * 60

/-- `ops::adjust_time` (src/astronomy/ops.rs) — same operation. -/
def ops_adjust_time (t : ℤ) (minutes : ℤ) : ℤ :=
  t + minutes * 60

/-- Asr shadow-length setting (src/models/madhab.rs). -/
inductive Madhab where
  | Shafi
  | Hanafi
deriving DecidableEq

/-- `Madhab::shadow`: Shafi = 1, Hanafi = 2. -/
def Madhab.shadow : Madhab → ℕ
  | .Shafi => 1
  | .Hanafi => 2

/-- Rule for approximating Fajr and Isha at high latitudes
(src/models/high_altitude_rule.rs). -/
inductive HighLatitudeRule where
  | MiddleOfTheNight
  | SeventhOfTheNight
  | TwilightAngle
deriving DecidableEq

/-- Twilight-glow category (src/models/shafaq.rs). -/
inductive Shafaq where
  | General
  | Ahmer
  | Abyad
deriving DecidableEq

/-- Calculation-method presets (src/models/method.rs). -/
inductive Method where
  | MuslimWorldLeague
  | Egyptian
  | Karachi
  | UmmAlQura
  | Dubai
  | MoonsightingCommittee
  | NorthAmerica
  | Kuwait
  | Qatar
  | Singapore
  | Tehran
  | Turkey
  | Other
deriving DecidableEq

/-- Per-prayer minute deltas (src/models/adjustments.rs). -/
structure TimeAdjustment where
  fajr : ℤ
  sunrise : ℤ
  dhuhr : ℤ
  asr : ℤ
  maghrib : ℤ
  isha : ℤ
deriving DecidableEq

/-- `TimeAdjustment::default()`: all deltas zero. -/
def TimeAdjustment.default : TimeAdjustment := ⟨0, 0, 0, 0, 0, 0⟩

/-- The five daily prayers (src/models/event.rs). -/
inductive Prayer where
  | Fajr
  | Dhuhr
  | Asr
  | Maghrib
  | Isha
deriving DecidableEq

/-- Why an instant falls in a forbidden window (src/models/event.rs). -/
inductive Reason where
  | DuringSunrise
  | DuringSunset
  | AfterMidnight
deriving DecidableEq

/-- Named daily events: prayers plus sunrise, Qiyam and restricted windows
(src/models/event.rs). -/
inductive Event where
  | Prayer (p : Prayer)
  | Sunrise
  | Qiyam
  | Restricted (r : Reason)
deriving DecidableEq

/-- Calculation configuration (src/models/parameters.rs). -/
structure Parameters where
  method : Method
  fajr_angle : ℚ
  maghrib_angle : ℚ
  isha_angle : ℚ
  isha_interval : ℤ
  madhab : Madhab
  high_latitude_rule : HighLatitudeRule
  adjustments : TimeAdjustment
  method_adjustments : TimeAdjustment
  rounding : Rounding
  shafaq : Shafaq

/-- `Parameters::night_portions`: the (fajr, isha) fraction of the night used
for the safe bounds. -/
def Parameters.night_portions (p : Parameters) : ℚ × ℚ :=
  match p.high_latitude_rule with
  | .MiddleOfTheNight => (1/2, 1/2)
  | .SeventhOfTheNight => (1/7, 1/7)
  | .TwilightAngle => (p.fajr_angle / 60, p.isha_angle / 60)

/-- `Parameters::time_adjustments`: user plus method delta for the named
event, zero for the others. -/
def Parameters.time_adjustments (p : Parameters) (e : Event) : ℤ :=
  match e with
  | .Prayer .Fajr => p.adjustments.fajr + p.method_adjustments.fajr
  | .Sunrise => p.adjustments.sunrise + p.method_adjustments.sunrise
  | .Prayer .Dhuhr => p.adjustments.dhuhr + p.method_adjustments.dhuhr
  | .Prayer .Asr => p.adjustments.asr + p.method_adjustments.asr
  | .Prayer .Maghrib => p.adjustments.maghrib + p.method_adjustments.maghrib
  | .Prayer .Isha => p.adjustments.isha + p.method_adjustments.isha
  | _ => 0

/-- `Parameters::new` (src/models/parameters.rs): defaults around the
given Fajr and Isha angles. -/
def Parameters.new (fajr_angle isha_angle : ℚ) : Parameters :=
  { method := .Other
    fajr_angle := fajr_angle
    maghrib_angle := 0
    isha_angle := isha_angle
    isha_interval := 0
    madhab := .Shafi
    high_latitude_rule := .MiddleOfTheNight
    adjustments := TimeAdjustment.default
    method_adjustments := TimeAdjustment.default
    rounding := .Nearest
    shafaq := .General }

/-- `ops::is_leap_year` (src/astronomy/ops.rs). -/
def is_leap_year (year : ℕ) : Bool :=
  year % 400 == 0 || (year % 4 == 0 && year % 100 != 0)

/-- `ops::days_since_solstice` (src/astronomy/ops.rs). The `u32`
subtraction `day_of_year - southern_offset` underflows (a panic) when
`day_of_year < southern_offset`; `none` models that panic. -/
def days_since_solstice (day_of_year year : ℕ) (latitude : ℚ) : Option ℕ :=
  let days_in_year := if is_leap_year year then 366 else 365
  if latitude < 0 then
    let southern_offset := if is_leap_year year then 173 else 172
    if day_of_year < southern_offset then none
    else some ((day_of_year - southern_offset) + days_in_year)
  else
    let northern_offset := 10
    let lapsed_days := day_of_year + northern_offset
    if days_in_year ≤ lapsed_days then some (lapsed_days - days_in_year)
    else some lapsed_days

/-- Whether the twilight adjustment is for morning or evening
(src/astronomy/ops.rs, `AdjustmentDaytime`). -/
inductive AdjustmentDaytime where
  | Morning
  | Evening
deriving DecidableEq

/-- Breakpoint coefficients for the seasonal twilight adjustment
(src/astronomy/ops.rs, `TwilightAdjustmentValues`). -/
structure TwilightAdjustmentValues where
  a : ℚ
  b : ℚ
  c : ℚ
  d : ℚ

/-- `ops::twilight_adjustment_values` (src/astronomy/ops.rs). -/
def twilight_adjustment_values (daytime : AdjustmentDaytime) (latitude : ℚ)
    (shafaq : Shafaq) : TwilightAdjustmentValues :=
  if daytime = .Morning then
    ⟨28.65 / 55 * |latitude| + 75, 19.44 / 55 * |latitude| + 75,
      32.74 / 55 * |latitude| + 75, 48.10 / 55 * |latitude| + 75⟩
  else
    match shafaq with
    | .General =>
        ⟨25.60 / 55 * |latitude| + 75, 2.050 / 55 * |latitude| + 75,
          -(9.210 / 55) * |latitude| + 75, 6.140 / 55 * |latitude| + 75⟩
    | .Ahmer =>
        ⟨17.40 / 55 * |latitude| + 62, -(7.160 / 55) * |latitude| + 62,
          5.120 / 55 * |latitude| + 62, 19.44 / 55 * |latitude| + 62⟩
    | .Abyad =>
        ⟨25.60 / 55 * |latitude| + 75, 7.160 / 55 * |latitude| + 75,
          36.84 / 55 * |latitude| + 75, 81.84 / 55 * |latitude| + 75⟩

/-- `ops::twilight_adjustments`: piecewise-linear interpolation over the
day-of-year since the solstice (src/astronomy/ops.rs). -/
def twilight_adjustments (daytime : AdjustmentDaytime) (latitude dyy : ℚ)
    (shafaq : Shafaq) : ℚ :=
  let v := twilight_adjustment_values daytime latitude shafaq
  if 0 ≤ dyy ∧ dyy ≤ 90 then (v.b - v.a) / 91 * dyy + v.a
  else if 91 ≤ dyy ∧ dyy ≤ 136 then (v.c - v.b) / 46 * (dyy - 91) + v.b
  else if 137 ≤ dyy ∧ dyy ≤ 182 then (v.d - v.c) / 46 * (dyy - 137) + v.c
  else if 183 ≤ dyy ∧ dyy ≤ 228 then (v.c - v.d) / 46 * (dyy - 183) + v.d
  else if 229 ≤ dyy ∧ dyy ≤ 274 then (v.b - v.c) / 46 * (dyy - 229) + v.c
  else (v.a - v.b) / 91 * (dyy - 275) + v.b

/-- `ops::season_adjusted_morning_twilight` (src/astronomy/ops.rs);
`none` propagates the `days_since_solstice` panic. -/
def season_adjusted_morning_twilight (latitude : ℚ) (day year : ℕ)
    (sunrise : ℤ) : Option ℤ :=
  (days_since_solstice day year latitude).map fun dss =>
    let dyy : ℚ := (dss : ℚ)
    let adjustment := twilight_adjustments .Morning latitude dyy .General
    let rounded_adjustment := roundHalfAway (adjustment * (-60))
    sunrise + rounded_adjustment

/-- `ops::season_adjusted_evening_twilight` (src/astronomy/ops.rs); note the
rounding here is fixed at `Nearest`. -/
def season_adjusted_evening_twilight (latitude : ℚ) (day year : ℕ)
    (sunset : ℤ) (shafaq : Shafaq) : Option ℤ :=
  (days_since_solstice day year latitude).map fun dss =>
    let dyy : ℚ := (dss : ℚ)
    let adjustment := twilight_adjustments .Evening latitude dyy shafaq
    let rounded_adjustment := roundHalfAway (adjustment * 60)
    rounded_minute (sunset + rounded_adjustment) .Nearest

/-- The fractional-hour output of the hour-angle computations, classified as
an IEEE double is: NaN, an infinity, or a finite rational value. -/
inductive FloatHours where
  | nan
  | posInf
  | negInf
  | finite (q : ℚ)
deriving DecidableEq

/-- `f64::is_normal`: true only for finite, non-zero, non-subnormal values
(magnitude at least `2^(-1022)`). -/
def FloatHours.is_normal : FloatHours → Bool
  | .finite q => decide (q ≠ 0 ∧ 1 / 2 ^ 1022 ≤ |q|)
  | _ => false

/-- Rust `as u32` cast of a finite `f64`: saturating, truncating toward
zero (only used on values far below `u32::MAX`). -/
def u32ofQ (q : ℚ) : ℤ :=
  if q < 0 then 0 else ratFloor q

/-- `SolarTime::hour_adjustment` (src/astronomy/solar.rs): wrap the hour
into `0..=23`, moving to yesterday/tomorrow as needed. The date is a day
index on the canonical timeline. -/
def hour_adjustment (calculated_hours : ℚ) (day : ℤ) : ℤ × ℤ :=
  if calculated_hours < 0 then (u32ofQ (calculated_hours + 24), day - 1)
  else if 24 ≤ calculated_hours then (u32ofQ (calculated_hours - 24), day + 1)
  else (u32ofQ calculated_hours, day)

/-- `SolarTime::setting_hour` (src/astronomy/solar.rs): convert a
fractional-hour value to an instant on day `day`, guarded by
`f64::is_normal`; `none` when the guard fails. The source's
`adjusted_secs` is the constant `0`, so its seconds-overflow branch is
dead and the result lands on a whole minute. -/
def setting_hour (hours : FloatHours) (day : ℤ) : Option ℤ :=
  match hours with
  | .finite q =>
      if (FloatHours.finite q).is_normal then
        let rounded_hours : ℚ := (ratFloor q : ℚ)
        let rounded_minutes : ℚ := (ratFloor ((q - rounded_hours) * 60) : ℚ)
        let rounded_seconds : ℚ :=
          (ratFloor ((q - (rounded_hours + rounded_minutes / 60)) * 3600) : ℚ)
        let ha := hour_adjustment rounded_hours day
        let adjusted_mins0 : ℤ := roundHalfAway (rounded_minutes + rounded_seconds / 60)
        let adjusted_hour1 : ℤ :=
          if 60 ≤ adjusted_mins0 then ha.1 + adjusted_mins0 / 60 else ha.1
        let adjusted_mins1 : ℤ :=
          if 60 ≤ adjusted_mins0 then adjusted_mins0 % 60 else adjusted_mins0
        let adjusted_date1 : ℤ :=
          if 24 ≤ adjusted_hour1 then ha.2 + adjusted_hour1 / 24 else ha.2
        let adjusted_hour2 : ℤ :=
          if 24 ≤ adjusted_hour1 then adjusted_hour1 % 24 else adjusted_hour1
        some (adjusted_date1 * 86400 + adjusted_hour2 * 3600 + adjusted_mins1 * 60)
      else none
  | _ => none

/-- The three fractional-hour inputs `SolarTime::new` converts via
`setting_hour` (src/astronomy/solar.rs, construction of `transit`,
`sunrise`, `sunset`). -/
structure SolarTimeHours where
  transit_hours : FloatHours
  sunrise_hours : FloatHours
  sunset_hours : FloatHours

/-- The tail of `SolarTime::new`: each `setting_hour` result is
`unwrap`ped, so a `none` anywhere is a panic, modelled as `none` overall. -/
def solarTime_new_times (h : SolarTimeHours) (day : ℤ) : Option (ℤ × ℤ × ℤ) :=
  match setting_hour h.transit_hours day, setting_hour h.sunrise_hours day,
      setting_hour h.sunset_hours day with
  | some t, some r, some s => some (t, r, s)
  | _, _, _ => none

/-- Calendar date on the canonical timeline: the day index identifies the
date; `ordinal` (day of year, 1-based) and `year` are the fields the
Moonsighting seasonal adjustment reads. -/
structure DateD where
  day : ℤ
  ordinal : ℕ
  year : ℕ

/-- `Stride::tomorrow`: next ordinal, rolling into the next year past its
last day (src/astronomy/unit.rs). -/
def DateD.tomorrow (d : DateD) : DateD :=
  let days_in_year := if is_leap_year d.year then 366 else 365
  if d.ordinal + 1 ≤ days_in_year then ⟨d.day + 1, d.ordinal + 1, d.year⟩
  else ⟨d.day + 1, 1, d.year + 1⟩

/-- `Stride::yesterday`: previous ordinal, rolling back to 31 December of
the previous year from the first day (src/astronomy/unit.rs). -/
def DateD.yesterday (d : DateD) : DateD :=
  if 2 ≤ d.ordinal then ⟨d.day - 1, d.ordinal - 1, d.year⟩
  else ⟨d.day - 1, if is_leap_year (d.year - 1) then 366 else 365, d.year - 1⟩

/-- Geographic position in degrees (src/astronomy/unit.rs). -/
structure Coordinates where
  latitude : ℚ
  longitude : ℚ

/-- The outputs of `SolarTime` for one date that the schedule consumes:
the converted `transit`/`sunrise`/`sunset` instants, and the two altitude
queries (`time_for_solar_angle`, `afternoon`) recorded as functions of
their arguments. The floating-point astronomy that produces these values
is abstracted as this data. -/
structure SolarTimeI where
  transit : ℤ
  sunrise : ℤ
  sunset : ℤ
  time_for_solar_angle : ℚ → Bool → ℤ
  afternoon : ℕ → ℤ

/-- `SolarTime::new` as a function of the date's day index. -/
abbrev SolarEngine := ℤ → SolarTimeI

/-- `calculate_night` (src/schedule.rs): tomorrow's sunrise minus today's
sunset, in seconds. -/
def calculate_night (solar_time_tomorrow solar_time : SolarTimeI) : ℤ :=
  solar_time_tomorrow.sunrise - solar_time.sunset

/-- `calculate_maghrib` (src/schedule.rs). -/
def calculate_maghrib (solar_time : SolarTimeI) (parameters : Parameters) : ℤ :=
  rounded_minute
    (ops_adjust_time solar_time.sunset (parameters.time_adjustments (.Prayer .Maghrib)))
    parameters.rounding

/-- `calculate_asr` (src/schedule.rs). -/
def calculate_asr (solar_time : SolarTimeI) (parameters : Parameters) : ℤ :=
  rounded_minute
    (adjust_time (solar_time.afternoon parameters.madhab.shadow)
      (parameters.time_adjustments (.Prayer .Asr)))
    parameters.rounding

/-- `calculate_dhuhr` (src/schedule.rs). -/
def calculate_dhuhr (solar_time : SolarTimeI) (parameters : Parameters) : ℤ :=
  rounded_minute
    (adjust_time solar_time.transit (parameters.time_adjustments (.Prayer .Dhuhr)))
    parameters.rounding

/-- `calculate_sunrise` (src/schedule.rs). -/
def calculate_sunrise (solar_time : SolarTimeI) (parameters : Parameters) : ℤ :=
  rounded_minute
    (adjust_time solar_time.sunrise (parameters.time_adjustments .Sunrise))
    parameters.rounding

/-- `calculate_fajr` (src/schedule.rs): angle-based time (or `sunrise −
night/7` for Moonsighting at latitude ≥ 55), floored by the safe bound,
then adjusted and rounded. `none` propagates the seasonal-adjustment
panic. -/
def calculate_fajr (parameters : Parameters) (solar_time : SolarTimeI)
    (night : ℤ) (coordinates : Coordinates) (prayer_date : DateD) : Option ℤ :=
  let fajr0 : ℤ :=
    if parameters.method = .MoonsightingCommittee ∧ 55 ≤ coordinates.latitude then
      let night_fraction := night.tdiv 7
      solar_time.sunrise + (-night_fraction)
    else
      solar_time.time_for_solar_angle (-parameters.fajr_angle) false
  let safe_fajr : Option ℤ :=
    if parameters.method = .MoonsightingCommittee then
      season_adjusted_morning_twilight coordinates.latitude prayer_date.ordinal
        prayer_date.year solar_time.sunrise
    else
      let portion := parameters.night_portions.1
      let night_fraction : ℚ := portion * (night : ℚ)
      some (solar_time.sunrise + (-(truncToInt night_fraction)))
  safe_fajr.map fun sf =>
    let fajr1 := if fajr0 < sf then sf else fajr0
    rounded_minute (adjust_time fajr1 (parameters.time_adjustments (.Prayer .Fajr)))
      parameters.rounding

/-- The `safe_isha` binding of `calculate_isha` (src/schedule.rs): the
seasonal adjustment for Moonsighting, otherwise sunset plus the night
portion. -/
def isha_safe_bound (parameters : Parameters) (solar_time : SolarTimeI)
    (night : ℤ) (coordinates : Coordinates) (prayer_date : DateD) : Option ℤ :=
  if parameters.method = .MoonsightingCommittee then
    season_adjusted_evening_twilight coordinates.latitude prayer_date.ordinal
      prayer_date.year solar_time.sunset parameters.shafaq
  else
    let portion := parameters.night_portions.2
    let night_fraction : ℚ := portion * (night : ℚ)
    some (solar_time.sunset + truncToInt night_fraction)

/-- The `isha` binding of `calculate_isha` (src/schedule.rs): `sunset +
night/7` for Moonsighting at latitude ≥ 55, otherwise the angle-based
time. -/
def isha_base_time (parameters : Parameters) (solar_time : SolarTimeI)
    (night : ℤ) (coordinates : Coordinates) : ℤ :=
  if parameters.method = .MoonsightingCommittee ∧ 55 ≤ coordinates.latitude then
    let night_fraction := night.tdiv 7
    solar_time.sunset + night_fraction
  else
    solar_time.time_for_solar_angle (-parameters.isha_angle) true

/-- The body of `calculate_isha` (src/schedule.rs) before the trailing
`.adjust_time(...).rounded_minute(...)`: either `sunset + isha_interval`
minutes, or the earlier of the base time and the safe bound
(`if isha > safe_isha { safe_isha } else { isha }`). -/
def calculate_isha_pre (parameters : Parameters) (solar_time : SolarTimeI)
    (night : ℤ) (coordinates : Coordinates) (prayer_date : DateD) : Option ℤ :=
  if 0 < parameters.isha_interval then
    some (solar_time.sunset + parameters.isha_interval * 60)
  else
    (isha_safe_bound parameters solar_time night coordinates prayer_date).map
      fun safe_isha =>
        let isha := isha_base_time parameters solar_time night coordinates
        if safe_isha < isha then safe_isha else isha

/-- `calculate_isha` (src/schedule.rs): the pre-value with the Isha
adjustment and the configured rounding applied. -/
def calculate_isha (parameters : Parameters) (solar_time : SolarTimeI)
    (night : ℤ) (coordinates : Coordinates) (prayer_date : DateD) : Option ℤ :=
  (calculate_isha_pre parameters solar_time night coordinates prayer_date).map fun t =>
    rounded_minute (adjust_time t (parameters.time_adjustments (.Prayer .Isha)))
      parameters.rounding

/-- `calculate_qiyam` (src/schedule.rs): middle and last third of the
night from `current_maghrib` to tomorrow's Fajr, rounded with the
configured policy, plus that Fajr. -/
def calculate_qiyam (engine : SolarEngine) (current_maghrib : ℤ)
    (parameters : Parameters) (solar_time : SolarTimeI)
    (coordinates : Coordinates) (prayer_date : DateD) : Option (ℤ × ℤ × ℤ) :=
  let tomorrow := prayer_date.tomorrow
  let solar_time_tomorrow := engine tomorrow.day
  let night := solar_time_tomorrow.sunrise - solar_time.sunset
  (calculate_fajr parameters solar_time night coordinates prayer_date).map
    fun tomorrow_fajr =>
      let night_duration : ℚ := ((tomorrow_fajr - current_maghrib : ℤ) : ℚ)
      let middle_night_portion := truncToInt (night_duration / 2)
      let last_third_portion := truncToInt (night_duration * (2/3))
      let middle_of_night :=
        rounded_minute (current_maghrib + middle_night_portion) parameters.rounding
      let last_third_of_night :=
        rounded_minute (current_maghrib + last_third_portion) parameters.rounding
      (middle_of_night, last_third_of_night, tomorrow_fajr)

/-- The schedule of instants held by `Times` (src/schedule.rs). -/
structure Times where
  midnight_yesterday : ℤ
  qiyam_yesterday : ℤ
  fajr : ℤ
  sunrise : ℤ
  dhuhr : ℤ
  asr : ℤ
  maghrib : ℤ
  isha : ℤ
  midnight : ℤ
  qiyam : ℤ
  fajr_tomorrow : ℤ
deriving DecidableEq

/-- `Times::new` (src/schedule.rs): builds the full schedule; `none`
propagates any panic from the fallible sub-computations. -/
def TimesNew (engine : SolarEngine) (date : DateD) (coordinates : Coordinates)
    (parameters : Parameters) : Option Times :=
  let tomorrow := date.tomorrow
  let yesterday := date.yesterday
  let solar_time_yesterday := engine yesterday.day
  let solar_time := engine date.day
  let solar_time_tomorrow := engine tomorrow.day
  let night := calculate_night solar_time_tomorrow solar_time
  (calculate_fajr parameters solar_time night coordinates date).bind fun fajr =>
  (calculate_isha parameters solar_time night coordinates date).bind fun isha =>
  (calculate_qiyam engine (calculate_maghrib solar_time parameters) parameters
      solar_time_tomorrow coordinates tomorrow).bind fun mqf =>
  (calculate_qiyam engine (calculate_maghrib solar_time_yesterday parameters)
      parameters solar_time coordinates date).map fun mqfy =>
  { midnight_yesterday := mqfy.1
    qiyam_yesterday := mqfy.2.1
    fajr := fajr
    sunrise := calculate_sunrise solar_time parameters
    dhuhr := calculate_dhuhr solar_time parameters
    asr := calculate_asr solar_time parameters
    maghrib := calculate_maghrib solar_time parameters
    isha := isha
    midnight := mqf.1
    qiyam := mqf.2.1
    fajr_tomorrow := mqf.2.2 }

/-- `Duration::num_minutes` of a whole-second duration: truncating
division by 60. -/
def num_minutes (seconds : ℤ) : ℤ := seconds.tdiv 60

/-- The event component of `Times::current` (src/schedule.rs): the ordered
backward scan over the schedule's boundaries. -/
def Times.current (t : Times) (time : ℤ) : Event :=
  if t.fajr_tomorrow - time ≤ 0 then .Prayer .Fajr
  else if t.qiyam - time ≤ 0 then .Qiyam
  else if t.midnight - time ≤ 0 then .Restricted .AfterMidnight
  else if t.isha - time ≤ 0 then .Prayer .Isha
  else if t.maghrib - time ≤ 0 then .Prayer .Maghrib
  else if 0 ≤ num_minutes (t.maghrib - time) ∧ num_minutes (t.maghrib - time) ≤ 20 then
    .Restricted .DuringSunset
  else if t.asr - time ≤ 0 then .Prayer .Asr
  else if t.dhuhr - time ≤ 0 then .Prayer .Dhuhr
  else if num_minutes (t.sunrise - time) ≤ -20 then .Sunrise
  else if -20 ≤ num_minutes (t.sunrise - time) ∧ num_minutes (t.sunrise - time) ≤ 0 then
    .Restricted .DuringSunrise
  else if t.fajr - time ≤ 0 then .Prayer .Fajr
  else if t.qiyam_yesterday - time ≤ 0 then .Qiyam
  else .Restricted .AfterMidnight

/-- The builder for a schedule (src/schedule.rs, `struct Schedule`). -/
structure Schedule where
  date : Option DateD
  coordinates : Option Coordinates
  params : Option Parameters

/-- `Schedule::new`: all inputs absent. -/
def Schedule.new : Schedule := ⟨none, none, none⟩

/-- `Schedule::with_date`. -/
def Schedule.with_date (s : Schedule) (date : DateD) : Schedule :=
  { s with date := some date }

/-- `Schedule::with_coordinates`. -/
def Schedule.with_coordinates (s : Schedule) (location : Coordinates) : Schedule :=
  { s with coordinates := some location }

/-- `Schedule::with_parameters`. -/
def Schedule.with_parameters (s : Schedule) (params : Parameters) : Schedule :=
  { s with params := some params }

/-- `Schedule::build` (src/schedule.rs): `Err` unless date, coordinates
and parameters are all present; otherwise `Ok` of the `Times::new`
result (whose own panics stay modelled as the inner `Option`). -/
def Schedule.build (s : Schedule) (engine : SolarEngine) :
    Except String (Option Times) :=
  match s.date, s.coordinates, s.params with
  | some date, some coordinates, some params =>
      .ok (TimesNew engine date coordinates params)
  | _, _, _ =>
      .error "Required information is needed in order to calculate the prayer times."

/-- A concrete solar engine for evaluating the schedule arithmetic: one
fixed daily pattern shifted by 86400 seconds per day (sunrise 10:00,
transit 17:13, sunset 00:26 next day in seconds-of-day; dawn/dusk
altitude queries at 08:36 and 01:50 next day; Asr at 22:13). -/
def engineA : SolarEngine := fun day =>
  { transit := 62000 + 86400 * day
    sunrise := 36000 + 86400 * day
    sunset := 88000 + 86400 * day
    time_for_solar_angle := fun _ after => (if after then 93000 else 31000) + 86400 * day
    afternoon := fun _ => 80000 + 86400 * day }

/-- A concrete date for evaluating the schedule arithmetic. -/
def dateA : DateD := ⟨0, 100, 2015⟩

/-- A concrete mid-latitude position. -/
def coordsA : Coordinates := ⟨10, 20⟩

/-- Parameters with a large (+300 min) user Fajr adjustment and no
rounding. -/
def params_fajr_adjusted : Parameters :=
  { Parameters.new 0 0 with adjustments := ⟨300, 0, 0, 0, 0, 0⟩, rounding := .NoRounding }

/-- Default-style parameters with rounding disabled. -/
def params_no_rounding : Parameters :=
  { Parameters.new 0 0 with rounding := .NoRounding }

/-- A degenerate engine (all instants zero) for exercising the builder. -/
def engineZ : SolarEngine := fun _ =>
  { transit := 0, sunrise := 0, sunset := 0,
    time_for_solar_angle := fun _ _ => 0, afternoon := fun _ => 0 }

/-- A single concrete `SolarTime` sample for the Isha computation. -/
def solarW : SolarTimeI :=
  { transit := 62000, sunrise := 100000, sunset := 50000,
    time_for_solar_angle := fun _ after => if after then 60000 else 31000,
    afternoon := fun _ => 45000 }

/-- Parameters with the Umm-al-Qura-style fixed 90-minute Isha interval. -/
def params_interval90 : Parameters :=
  { Parameters.new (18.5 : ℚ) 0 with isha_interval := 90 }

/-- Modelled from the spec: the floating-point astronomy fixing the
Raleigh scenario (35.775°N, −78.6336°E, North America method, Hanafi
madhab, 2015-07-12 UTC) is not shallowly embeddable, and the spec's
end-to-end scenario (§8) pins the computed schedule to the minute:
Fajr 08:42, Sunrise 10:08, Dhuhr 17:21, Asr 22:22, Maghrib 00:32(+1d),
Isha 01:57(+1d). Instants are seconds from 2015-07-12T00:00:00Z; the
remaining fields (night subdivisions, tomorrow's Fajr, yesterday's
values) are the consistent nearest-minute values produced by the same
construction. -/
def raleighTimes : Times :=
  { midnight_yesterday := 16680
    qiyam_yesterday := 21540
    fajr := 31320
    sunrise := 36480
    dhuhr := 62460
    asr := 80520
    maghrib := 88320
    isha := 93420
    midnight := 103080
    qiyam := 107940
    fajr_tomorrow := 117780 }

lemma ratFloor_eq (q : ℚ) : ratFloor q = ⌊q⌋ := Rat.floor_def.symm

lemma truncToInt_eq (q : ℚ) : truncToInt q = if 0 ≤ q then ⌊q⌋ else ⌈q⌉ := by
  rw [truncToInt, ratFloor_eq, ratFloor_eq, Int.floor_neg, neg_neg]

lemma roundHalfAway_eq (q : ℚ) :
    roundHalfAway q = if 0 ≤ q then ⌊q + 1/2⌋ else ⌈q - 1/2⌉ := by
  rw [roundHalfAway, ratFloor_eq, ratFloor_eq]
  have h : -q + 1/2 = -(q - 1/2) := by ring
  rw [h, Int.floor_neg, neg_neg]


lemma truncToInt_nonneg_eq_floor {q : ℚ} (h : 0 ≤ q) : truncToInt q = ⌊q⌋ := by
  simp [truncToInt_eq, h]

lemma truncToInt_neg (q : ℚ) : truncToInt (-q) = -(truncToInt q) := by
  rcases lt_trichotomy q 0 with h | h | h
  · have h1 : ¬ (0 ≤ q) := not_le.mpr h
    have h2 : 0 ≤ -q := by linarith
    simp [truncToInt_eq, h1, h2, Int.floor_neg]
  · simp [h, truncToInt_eq]
  · have h1 : 0 ≤ q := le_of_lt h
    have h2 : ¬ (0 ≤ -q) := by simp [not_le]; linarith
    simp [truncToInt_eq, h1, h2, Int.ceil_neg]

lemma truncToInt_le_of_nonneg {q : ℚ} (h : 0 ≤ q) : (truncToInt q : ℚ) ≤ q := by
  rw [truncToInt_nonneg_eq_floor h]
  exact Int.floor_le q

lemma lt_truncToInt_add_one_of_nonneg {q : ℚ} (h : 0 ≤ q) :
    q < (truncToInt q : ℚ) + 1 := by
  rw [truncToInt_nonneg_eq_floor h]
  exact Int.lt_floor_add_one q

lemma truncToInt_intCast_div_two (n : ℤ) (h : 0 ≤ n) :
    truncToInt ((n : ℚ) / 2) = n / 2 := by
  rw [truncToInt_nonneg_eq_floor (by positivity)]
  have h2 : ((2 : ℕ) : ℚ) = (2 : ℚ) := by norm_num
  rw [← h2, Rat.floor_intCast_div_natCast n 2]
  norm_num

lemma unwound_degrees (a : ℚ) :
    (Angle.new a).unwound.degrees = 360 * Int.fract (a / 360) := by
  simp only [Angle.new, Angle.unwound, normalized_to_scale, Int.fract]
  ring

lemma unwound_of_mem (b : Angle) (h0 : 0 ≤ b.degrees) (h1 : b.degrees < 360) :
    b.unwound = b := by
  have hfl : ⌊b.degrees / 360⌋ = 0 := by
    rw [Int.floor_eq_zero_iff]
    constructor
    · positivity
    · rw [div_lt_one (by norm_num : (0:ℚ) < 360)]
      exact h1
  cases b with
  | mk d =>
      simp only [Angle.unwound, normalized_to_scale] at *
      rw [hfl]
      simp

lemma quadrant_shifted_of_mem (b : Angle) (h0 : -180 ≤ b.degrees)
    (h1 : b.degrees ≤ 180) : b.quadrant_shifted = b := by
  simp [Angle.quadrant_shifted, h0, h1]

/-- Claim C6: for every (finite, embedded as rational) degree value `a`,
`Angle::new(a).unwound()` lies in `[0, 360)` and `unwound` is idempotent;
`quadrant_shifted` maps every value into `[-180, 180]` and applying it to
its own output returns the output unchanged. -/
theorem angle_unwound_quadrant_shifted_normalization (a : ℚ) :
    (0 ≤ (Angle.new a).unwound.degrees ∧ (Angle.new a).unwound.degrees < 360) ∧
    (Angle.new a).unwound.unwound = (Angle.new a).unwound ∧
    (-180 ≤ (Angle.new a).quadrant_shifted.degrees ∧
      (Angle.new a).quadrant_shifted.degrees ≤ 180) ∧
    (Angle.new a).quadrant_shifted.quadrant_shifted = (Angle.new a).quadrant_shifted := by
  have hrange : 0 ≤ (Angle.new a).unwound.degrees ∧ (Angle.new a).unwound.degrees < 360 := by
    rw [unwound_degrees]
    constructor
    · have := Int.fract_nonneg (a / 360)
      positivity
    · have := Int.fract_lt_one (a / 360)
      linarith
  have hqrange : -180 ≤ (Angle.new a).quadrant_shifted.degrees ∧
      (Angle.new a).quadrant_shifted.degrees ≤ 180 := by
    by_cases hc : -180 ≤ (Angle.new a).degrees ∧ (Angle.new a).degrees ≤ 180
    · simp only [Angle.quadrant_shifted, if_pos hc]
      exact hc
    · simp only [Angle.quadrant_shifted, hc, if_false]
      set q : ℚ := (Angle.new a).degrees / 360 with hq
      have hdeg : (Angle.new a).degrees = 360 * q := by
        rw [hq]; ring
      rcases le_or_lt 0 q with hq0 | hq0
      · have hr : roundHalfAway q = ⌊q + 1/2⌋ := by simp [roundHalfAway_eq, hq0]
        have h1 : (⌊q + 1/2⌋ : ℚ) ≤ q + 1/2 := Int.floor_le _
        have h2 : q + 1/2 - 1 < (⌊q + 1/2⌋ : ℚ) := by
          have := Int.lt_floor_add_one (q + 1/2)
          linarith
        constructor <;> · simp only [hr, hdeg]; nlinarith
      · have hr : roundHalfAway q = ⌈q - 1/2⌉ := by
          simp [roundHalfAway_eq, not_le.mpr hq0]
        have h1 : (q : ℚ) - 1/2 ≤ (⌈q - 1/2⌉ : ℚ) := Int.le_ceil _
        have h2 : (⌈q - 1/2⌉ : ℚ) < q - 1/2 + 1 := by
          have := Int.ceil_lt_add_one (q - 1/2)
          linarith
        constructor <;> · simp only [hr, hdeg]; nlinarith
  exact ⟨hrange, unwound_of_mem _ hrange.1 hrange.2, hqrange,
    quadrant_shifted_of_mem _ hqrange.1 hqrange.2⟩

/-- Claim C10: `rounded_minute` with `Rounding::Up` adds exactly `60 − s`
seconds where `s` is the seconds component, so it always returns a strictly
later instant, pushes an exact minute boundary a full minute forward, and
is not idempotent. -/
theorem rounded_minute_up_strictly_later (t : ℤ) :
    rounded_minute t .Up = t + (60 - secondOf t) ∧
    t < rounded_minute t .Up ∧
    (secondOf t = 0 → rounded_minute t .Up = t + 60) ∧
    rounded_minute (rounded_minute t .Up) .Up ≠ rounded_minute t .Up := by
  have hup : ∀ s : ℤ, rounded_minute s .Up = s + (60 - s % 60) := fun _ => rfl
  refine ⟨rfl, ?_, ?_, ?_⟩
  · rw [hup]
    omega
  · intro h
    rw [hup]
    simp only [secondOf] at h
    omega
  · rw [hup, hup]
    omega

lemma truncToInt_intCast_mul_two_thirds (n : ℤ) (h : 0 ≤ n) :
    truncToInt ((n : ℚ) * (2/3)) = 2 * n / 3 := by
  rw [truncToInt_nonneg_eq_floor (by positivity)]
  have hc : (n : ℚ) * (2/3) = ((2 * n : ℤ) : ℚ) / ((3 : ℕ) : ℚ) := by
    push_cast
    ring
  rw [hc, Rat.floor_intCast_div_natCast]
  norm_num

lemma calculate_fajr_not_moonsighting (parameters : Parameters)
    (solar_time : SolarTimeI) (night : ℤ) (coordinates : Coordinates)
    (prayer_date : DateD) (hm : parameters.method ≠ .MoonsightingCommittee) :
    calculate_fajr parameters solar_time night coordinates prayer_date =
      some (rounded_minute (adjust_time
        (if solar_time.time_for_solar_angle (-parameters.fajr_angle) false <
            solar_time.sunrise +
              -truncToInt (parameters.night_portions.1 * (night : ℚ)) then
          solar_time.sunrise + -truncToInt (parameters.night_portions.1 * (night : ℚ))
        else solar_time.time_for_solar_angle (-parameters.fajr_angle) false)
        (parameters.time_adjustments (.Prayer .Fajr))) parameters.rounding) := by
  simp only [calculate_fajr]
  rw [if_neg (fun hc => hm hc.1), if_neg hm]
  simp [Option.map_some']

lemma isha_safe_bound_not_moonsighting (parameters : Parameters)
    (solar_time : SolarTimeI) (night : ℤ) (coordinates : Coordinates)
    (prayer_date : DateD) (hm : parameters.method ≠ .MoonsightingCommittee) :
    isha_safe_bound parameters solar_time night coordinates prayer_date =
      some (solar_time.sunset +
        truncToInt (parameters.night_portions.2 * (night : ℚ))) := by
  simp only [isha_safe_bound]
  rw [if_neg hm]

lemma isha_base_time_not_moonsighting (parameters : Parameters)
    (solar_time : SolarTimeI) (night : ℤ) (coordinates : Coordinates)
    (hm : parameters.method ≠ .MoonsightingCommittee) :
    isha_base_time parameters solar_time night coordinates =
      solar_time.time_for_solar_angle (-parameters.isha_angle) true := by
  simp only [isha_base_time]
  rw [if_neg (fun hc => hm hc.1)]

lemma calculate_qiyam_eq (engine : SolarEngine) (current_maghrib : ℤ)
    (parameters : Parameters) (solar_time : SolarTimeI) (coordinates : Coordinates)
    (prayer_date : DateD) (f : ℤ)
    (hf : calculate_fajr parameters solar_time
        ((engine prayer_date.tomorrow.day).sunrise - solar_time.sunset) coordinates
        prayer_date = some f) :
    calculate_qiyam engine current_maghrib parameters solar_time coordinates
        prayer_date =
      some (rounded_minute
          (current_maghrib + truncToInt (((f - current_maghrib : ℤ) : ℚ) / 2))
          parameters.rounding,
        rounded_minute
          (current_maghrib + truncToInt (((f - current_maghrib : ℤ) : ℚ) * (2/3)))
          parameters.rounding,
        f) := by
  simp only [calculate_qiyam, hf, Option.map_some']

lemma dateA_tomorrow_day : dateA.tomorrow.day = 1 := by
  simp [dateA, DateD.tomorrow, is_leap_year]

lemma fajr_engineA_eval :
    calculate_fajr params_no_rounding (engineA 0)
      ((engineA dateA.tomorrow.day).sunrise - (engineA 0).sunset) coordsA dateA =
      some 31000 := by
  rw [calculate_fajr_not_moonsighting _ _ _ _ _ (by decide), dateA_tomorrow_day]
  have ht : truncToInt (params_no_rounding.night_portions.1 *
      (((engineA 1).sunrise - (engineA 0).sunset : ℤ) : ℚ)) = 17200 := by
    norm_num [params_no_rounding, Parameters.new, Parameters.night_portions, engineA,
      truncToInt_eq]
  rw [ht]
  norm_num [engineA, adjust_time, rounded_minute, params_no_rounding, Parameters.new,
    Parameters.time_adjustments, TimeAdjustment.default]

lemma calculate_qiyam_engineA_eval :
    calculate_qiyam engineA 30000 params_no_rounding (engineA 0) coordsA dateA =
      some (30500, 30666, 31000) := by
  rw [calculate_qiyam_eq engineA 30000 params_no_rounding (engineA 0) coordsA dateA
    31000 fajr_engineA_eval]
  have h1 : truncToInt (((31000 - 30000 : ℤ) : ℚ) / 2) = 500 := by
    norm_num [truncToInt_eq]
  have h2 : truncToInt (((31000 - 30000 : ℤ) : ℚ) * (2/3)) = 666 := by
    norm_num [truncToInt_eq]
  rw [h1, h2]
  norm_num [rounded_minute, params_no_rounding, Parameters.new]

/-- Claim C3 counterexample: with the rounding policy configured to
`None`, `calculate_qiyam` returns a midnight of 30500 s (not on a minute
boundary), whereas the claimed fixed `Nearest` rounding of the same
formula gives 30480 s — the night-vigil times follow the configured
rounding policy, not a fixed "nearest". -/
theorem calculate_qiyam_fixed_nearest_counterexample :
    calculate_qiyam engineA 30000 params_no_rounding (engineA 0) coordsA dateA =
      some (30500, 30666, 31000) ∧
    (30500 : ℤ) ≠
      rounded_minute (30000 + truncToInt (((31000 - 30000 : ℤ) : ℚ) / 2)) .Nearest := by
  refine ⟨calculate_qiyam_engineA_eval, ?_⟩
  have h1 : truncToInt (((31000 - 30000 : ℤ) : ℚ) / 2) = 500 := by
    norm_num [truncToInt_eq]
  rw [h1]
  norm_num [rounded_minute, secondOf, roundHalfAway_eq, Int.emod_emod_of_dvd]

/-- Claim C3 amended: `midnight = maghrib + (fajr_tomorrow − maghrib)/2`
and `qiyam = maghrib + 2(fajr_tomorrow − maghrib)/3` in whole seconds,
both rounded to the minute with the CONFIGURED rounding policy (the
rounding here is `parameters.rounding`, not fixed at "nearest"). -/
theorem calculate_qiyam_formulas (engine : SolarEngine) (current_maghrib : ℤ)
    (parameters : Parameters) (solar_time : SolarTimeI) (coordinates : Coordinates)
    (prayer_date : DateD) (m q f : ℤ)
    (h : calculate_qiyam engine current_maghrib parameters solar_time coordinates
        prayer_date = some (m, q, f))
    (hord : current_maghrib ≤ f) :
    m = rounded_minute (current_maghrib + (f - current_maghrib) / 2)
        parameters.rounding ∧
    q = rounded_minute (current_maghrib + 2 * (f - current_maghrib) / 3)
        parameters.rounding ∧
    calculate_fajr parameters solar_time
      ((engine prayer_date.tomorrow.day).sunrise - solar_time.sunset) coordinates
      prayer_date = some f := by
  rcases hf : calculate_fajr parameters solar_time
      ((engine prayer_date.tomorrow.day).sunrise - solar_time.sunset) coordinates
      prayer_date with _ | f'
  · simp only [calculate_qiyam, hf, Option.map_none'] at h
    exact Option.noConfusion h
  · rw [calculate_qiyam_eq engine current_maghrib parameters solar_time coordinates
      prayer_date f' hf] at h
    injection h with h
    simp only [Prod.mk.injEq] at h
    obtain ⟨hm, hq, hff⟩ := h
    subst hff
    rw [truncToInt_intCast_div_two _ (by omega)] at hm
    rw [truncToInt_intCast_mul_two_thirds _ (by omega)] at hq
    exact ⟨hm.symm, hq.symm, rfl⟩

/-- Witness for the amended C3 on the concrete engine evaluation. -/
theorem calculate_qiyam_formulas_witness :
    (30500 : ℤ) = rounded_minute (30000 + (31000 - 30000) / 2) .NoRounding ∧
    (30666 : ℤ) = rounded_minute (30000 + 2 * (31000 - 30000) / 3) .NoRounding := by
  have h := calculate_qiyam_formulas engineA 30000 params_no_rounding (engineA 0)
    coordsA dateA 30500 30666 31000 calculate_qiyam_engineA_eval (by norm_num)
  exact ⟨h.1, h.2.1⟩

lemma num_minutes_nonneg (x : ℤ) (h : 0 ≤ x) : num_minutes x = x / 60 := by
  rw [num_minutes]
  rcases Int.le.dest h with ⟨n, rfl⟩
  rfl

/-- Claim C4 counterexample: at 600 s after the computed Raleigh Maghrib
the state machine returns Maghrib, not the during-sunset restricted
state: in the code the 20-minute forbidden window lies BEFORE Maghrib,
and any instant at or after Maghrib hits the `maghrib ≤ time` branch
first. -/
theorem raleigh_current_after_maghrib_counterexample :
    raleighTimes.current 88920 = Event.Prayer .Maghrib ∧
    ¬ raleighTimes.current 88920 = Event.Restricted .DuringSunset := by
  exact ⟨by decide, by decide⟩

/-- Claim C4 amended: on the Raleigh schedule, `current` at
2015-07-12T09:00Z is Fajr and at 11:00Z is Sunrise; every instant
strictly inside the 20-minute window BEFORE the computed Maghrib returns
the during-sunset restricted state rather than Asr, while instants from
Maghrib until Isha return Maghrib. -/
theorem raleigh_current_events (time : ℤ) (h1 : 87120 < time) (h2 : time < 88320) :
    raleighTimes.current 32400 = Event.Prayer .Fajr ∧
    raleighTimes.current 39600 = Event.Sunrise ∧
    raleighTimes.current time = Event.Restricted .DuringSunset ∧
    ∀ s, 88320 ≤ s → s < 93420 → raleighTimes.current s = Event.Prayer .Maghrib := by
  refine ⟨by decide, by decide, ?_, fun s hs1 hs2 => ?_⟩
  · have hmin : num_minutes (88320 - time) = (88320 - time) / 60 :=
      num_minutes_nonneg _ (by omega)
    simp only [Times.current, raleighTimes]
    rw [if_neg (by omega), if_neg (by omega), if_neg (by omega), if_neg (by omega),
      if_neg (by omega), if_pos (by rw [hmin]; omega)]
  · simp only [Times.current, raleighTimes]
    rw [if_neg (by omega), if_neg (by omega), if_neg (by omega), if_neg (by omega),
      if_pos (by omega)]

/-- Witness for the amended C4 at one minute before Maghrib. -/
theorem raleigh_current_events_witness :
    raleighTimes.current 88260 = Event.Restricted .DuringSunset ∧
    raleighTimes.current 88920 = Event.Prayer .Maghrib := by
  have h := raleigh_current_events 88260 (by norm_num) (by norm_num)
  exact ⟨h.2.2.1, h.2.2.2 88920 (by norm_num) (by norm_num)⟩

lemma rounded_minute_noRounding (t : ℤ) : rounded_minute t .NoRounding = t := rfl

lemma adjust_time_zero (t : ℤ) : adjust_time t 0 = t := by
  simp [adjust_time]

lemma ops_adjust_time_zero (t : ℤ) : ops_adjust_time t 0 = t := by
  simp [ops_adjust_time]

lemma TimesNew_eq (engine : SolarEngine) (date : DateD) (coordinates : Coordinates)
    (parameters : Parameters) (F I : ℤ) (MQ MQY : ℤ × ℤ × ℤ)
    (hF : calculate_fajr parameters (engine date.day)
        (calculate_night (engine date.tomorrow.day) (engine date.day)) coordinates
        date = some F)
    (hI : calculate_isha parameters (engine date.day)
        (calculate_night (engine date.tomorrow.day) (engine date.day)) coordinates
        date = some I)
    (hQ : calculate_qiyam engine (calculate_maghrib (engine date.day) parameters)
        parameters (engine date.tomorrow.day) coordinates date.tomorrow = some MQ)
    (hQY : calculate_qiyam engine
        (calculate_maghrib (engine date.yesterday.day) parameters) parameters
        (engine date.day) coordinates date = some MQY) :
    TimesNew engine date coordinates parameters = some
      { midnight_yesterday := MQY.1
        qiyam_yesterday := MQY.2.1
        fajr := F
        sunrise := calculate_sunrise (engine date.day) parameters
        dhuhr := calculate_dhuhr (engine date.day) parameters
        asr := calculate_asr (engine date.day) parameters
        maghrib := calculate_maghrib (engine date.day) parameters
        isha := I
        midnight := MQ.1
        qiyam := MQ.2.1
        fajr_tomorrow := MQ.2.2 } := by
  simp only [TimesNew, hF, hI, hQ, hQY, Option.some_bind, Option.map_some']

lemma nightA_eval :
    calculate_night (engineA dateA.tomorrow.day) (engineA dateA.day) = 34400 := by
  rw [dateA_tomorrow_day]
  norm_num [calculate_night, engineA, dateA]

lemma fajrA_adjusted_eval :
    calculate_fajr params_fajr_adjusted (engineA dateA.day)
      (calculate_night (engineA dateA.tomorrow.day) (engineA dateA.day)) coordsA
      dateA = some 49000 := by
  rw [calculate_fajr_not_moonsighting _ _ _ _ _ (by decide), nightA_eval]
  have ht : truncToInt (params_fajr_adjusted.night_portions.1 * ((34400 : ℤ) : ℚ)) =
      17200 := by
    norm_num [params_fajr_adjusted, Parameters.new, Parameters.night_portions,
      truncToInt_eq]
  rw [ht]
  norm_num [engineA, dateA, adjust_time, rounded_minute, params_fajr_adjusted,
    Parameters.new, Parameters.time_adjustments, TimeAdjustment.default]

lemma ishaA_adjusted_eval :
    calculate_isha params_fajr_adjusted (engineA dateA.day)
      (calculate_night (engineA dateA.tomorrow.day) (engineA dateA.day)) coordsA
      dateA = some 93000 := by
  simp only [calculate_isha, calculate_isha_pre]
  rw [if_neg (by decide : ¬ (0 : ℤ) < params_fajr_adjusted.isha_interval),
    isha_safe_bound_not_moonsighting _ _ _ _ _ (by decide),
    isha_base_time_not_moonsighting _ _ _ _ (by decide), nightA_eval]
  have ht : truncToInt (params_fajr_adjusted.night_portions.2 * ((34400 : ℤ) : ℚ)) =
      17200 := by
    norm_num [params_fajr_adjusted, Parameters.new, Parameters.night_portions,
      truncToInt_eq]
  rw [ht]
  norm_num [engineA, dateA, Option.map_some', adjust_time, rounded_minute,
    params_fajr_adjusted, Parameters.new, Parameters.time_adjustments,
    TimeAdjustment.default]

lemma maghribA_adjusted_eval :
    calculate_maghrib (engineA dateA.day) params_fajr_adjusted = 88000 := by
  norm_num [calculate_maghrib, ops_adjust_time, rounded_minute, engineA, dateA,
    params_fajr_adjusted, Parameters.new, Parameters.time_adjustments,
    TimeAdjustment.default]

lemma dateA_tomorrow_tomorrow_day : dateA.tomorrow.tomorrow.day = 2 := by
  simp [dateA, DateD.tomorrow, is_leap_year]

lemma fajrA_adjusted_tomorrow_eval :
    calculate_fajr params_fajr_adjusted (engineA dateA.tomorrow.day)
      ((engineA dateA.tomorrow.tomorrow.day).sunrise -
        (engineA dateA.tomorrow.day).sunset) coordsA dateA.tomorrow =
      some 135400 := by
  rw [calculate_fajr_not_moonsighting _ _ _ _ _ (by decide), dateA_tomorrow_day,
    dateA_tomorrow_tomorrow_day]
  have hn : (engineA 2).sunrise - (engineA 1).sunset = 34400 := by
    norm_num [engineA]
  rw [hn]
  have ht : truncToInt (params_fajr_adjusted.night_portions.1 * ((34400 : ℤ) : ℚ)) =
      17200 := by
    norm_num [params_fajr_adjusted, Parameters.new, Parameters.night_portions,
      truncToInt_eq]
  rw [ht]
  norm_num [engineA, adjust_time, rounded_minute, params_fajr_adjusted,
    Parameters.new, Parameters.time_adjustments, TimeAdjustment.default]

lemma qiyamA_adjusted_eval :
    calculate_qiyam engineA (calculate_maghrib (engineA dateA.day) params_fajr_adjusted)
      params_fajr_adjusted (engineA dateA.tomorrow.day) coordsA dateA.tomorrow =
      some (111700, 119600, 135400) := by
  rw [maghribA_adjusted_eval,
    calculate_qiyam_eq engineA 88000 params_fajr_adjusted (engineA dateA.tomorrow.day)
      coordsA dateA.tomorrow 135400 fajrA_adjusted_tomorrow_eval]
  rw [truncToInt_intCast_div_two _ (by norm_num),
    truncToInt_intCast_mul_two_thirds _ (by norm_num)]
  norm_num [rounded_minute, params_fajr_adjusted, Parameters.new]

lemma dateA_yesterday_day : dateA.yesterday.day = -1 := by
  simp [dateA, DateD.yesterday]

lemma maghribA_adjusted_yesterday_eval :
    calculate_maghrib (engineA dateA.yesterday.day) params_fajr_adjusted = 1600 := by
  rw [dateA_yesterday_day]
  norm_num [calculate_maghrib, ops_adjust_time, rounded_minute, engineA,
    params_fajr_adjusted, Parameters.new, Parameters.time_adjustments,
    TimeAdjustment.default]

lemma qiyamA_adjusted_yesterday_eval :
    calculate_qiyam engineA
      (calculate_maghrib (engineA dateA.yesterday.day) params_fajr_adjusted)
      params_fajr_adjusted (engineA dateA.day) coordsA dateA =
      some (25300, 33200, 49000) := by
  have hFY : calculate_fajr params_fajr_adjusted (engineA dateA.day)
      ((engineA dateA.tomorrow.day).sunrise - (engineA dateA.day).sunset) coordsA
      dateA = some 49000 := fajrA_adjusted_eval
  rw [maghribA_adjusted_yesterday_eval,
    calculate_qiyam_eq engineA 1600 params_fajr_adjusted (engineA dateA.day) coordsA
      dateA 49000 hFY]
  rw [truncToInt_intCast_div_two _ (by norm_num),
    truncToInt_intCast_mul_two_thirds _ (by norm_num)]
  norm_num [rounded_minute, params_fajr_adjusted, Parameters.new]

/-- Claim C1 counterexample: with a parameter set carrying a +300-minute
user Fajr adjustment, `Times::new` builds a schedule whose Fajr (49000 s)
lies after its Sunrise (36000 s), so the claimed strict ordering fails
for this date/location/parameter set even though every instant is
finite. -/
theorem times_ordering_counterexample :
    TimesNew engineA dateA coordsA params_fajr_adjusted = some
      { midnight_yesterday := 25300, qiyam_yesterday := 33200, fajr := 49000,
        sunrise := 36000, dhuhr := 62000, asr := 80000, maghrib := 88000,
        isha := 93000, midnight := 111700, qiyam := 119600,
        fajr_tomorrow := 135400 } ∧
    ¬ ((49000 : ℤ) < 36000) := by
  constructor
  · rw [TimesNew_eq engineA dateA coordsA params_fajr_adjusted 49000 93000
      (111700, 119600, 135400) (25300, 33200, 49000) fajrA_adjusted_eval
      ishaA_adjusted_eval qiyamA_adjusted_eval qiyamA_adjusted_yesterday_eval]
    norm_num [calculate_sunrise, calculate_dhuhr, calculate_asr, calculate_maghrib,
      adjust_time, ops_adjust_time, rounded_minute, engineA, dateA,
      params_fajr_adjusted, Parameters.new, Parameters.time_adjustments,
      TimeAdjustment.default, Madhab.shadow]
  · norm_num

lemma adjustments_zero (parameters : Parameters)
    (ha : parameters.adjustments = TimeAdjustment.default)
    (hma : parameters.method_adjustments = TimeAdjustment.default) (e : Event) :
    parameters.time_adjustments e = 0 := by
  rcases e with p | _ | _ | r
  · cases p <;> simp [Parameters.time_adjustments, ha, hma, TimeAdjustment.default]
  · simp [Parameters.time_adjustments, ha, hma, TimeAdjustment.default]
  · rfl
  · rfl

lemma night_portion_half (parameters : Parameters)
    (hr : parameters.high_latitude_rule = .MiddleOfTheNight) :
    parameters.night_portions = (1/2, 1/2) := by
  simp [Parameters.night_portions, hr]

lemma truncToInt_half_intCast (n : ℤ) (hn : 0 ≤ n) :
    truncToInt ((1/2 : ℚ) * (n : ℚ)) = n / 2 := by
  rw [show (1/2 : ℚ) * (n : ℚ) = ((n : ℤ) : ℚ) / 2 by ring,
    truncToInt_intCast_div_two _ hn]

lemma calculate_fajr_lower (parameters : Parameters) (st : SolarTimeI) (night : ℤ)
    (coordinates : Coordinates) (prayer_date : DateD) (F : ℤ)
    (hm : parameters.method ≠ .MoonsightingCommittee)
    (ha : parameters.adjustments = TimeAdjustment.default)
    (hma : parameters.method_adjustments = TimeAdjustment.default)
    (hrnd : parameters.rounding = .NoRounding)
    (hF : calculate_fajr parameters st night coordinates prayer_date = some F) :
    st.time_for_solar_angle (-parameters.fajr_angle) false ≤ F := by
  rw [calculate_fajr_not_moonsighting _ _ _ _ _ hm,
    adjustments_zero parameters ha hma, hrnd] at hF
  simp only [adjust_time_zero, rounded_minute_noRounding] at hF
  injection hF with hF
  split_ifs at hF with hc <;> omega

lemma calculate_fajr_cases (parameters : Parameters) (st : SolarTimeI) (night : ℤ)
    (coordinates : Coordinates) (prayer_date : DateD) (F : ℤ)
    (hm : parameters.method ≠ .MoonsightingCommittee)
    (hr : parameters.high_latitude_rule = .MiddleOfTheNight)
    (ha : parameters.adjustments = TimeAdjustment.default)
    (hma : parameters.method_adjustments = TimeAdjustment.default)
    (hrnd : parameters.rounding = .NoRounding)
    (hnn : 0 ≤ night)
    (hF : calculate_fajr parameters st night coordinates prayer_date = some F) :
    (F = st.time_for_solar_angle (-parameters.fajr_angle) false ∨
      F = st.sunrise - night / 2) ∧
    st.time_for_solar_angle (-parameters.fajr_angle) false ≤ F := by
  rw [calculate_fajr_not_moonsighting _ _ _ _ _ hm,
    adjustments_zero parameters ha hma, hrnd, night_portion_half parameters hr] at hF
  simp only [adjust_time_zero, rounded_minute_noRounding] at hF
  rw [truncToInt_half_intCast _ hnn] at hF
  injection hF with hF
  split_ifs at hF with hc
  · exact ⟨Or.inr (by omega), by omega⟩
  · exact ⟨Or.inl (by omega), by omega⟩

lemma calculate_isha_cases (parameters : Parameters) (st : SolarTimeI) (night : ℤ)
    (coordinates : Coordinates) (prayer_date : DateD) (I : ℤ)
    (hm : parameters.method ≠ .MoonsightingCommittee)
    (hr : parameters.high_latitude_rule = .MiddleOfTheNight)
    (hi : ¬ 0 < parameters.isha_interval)
    (ha : parameters.adjustments = TimeAdjustment.default)
    (hma : parameters.method_adjustments = TimeAdjustment.default)
    (hrnd : parameters.rounding = .NoRounding)
    (hnn : 0 ≤ night)
    (hI : calculate_isha parameters st night coordinates prayer_date = some I) :
    (I = st.sunset + night / 2 ∨
      I = st.time_for_solar_angle (-parameters.isha_angle) true) ∧
    I ≤ st.time_for_solar_angle (-parameters.isha_angle) true ∧
    I ≤ st.sunset + night / 2 := by
  simp only [calculate_isha, calculate_isha_pre, if_neg hi,
    isha_safe_bound_not_moonsighting _ _ _ _ _ hm,
    isha_base_time_not_moonsighting _ _ _ _ hm, Option.map_some'] at hI
  rw [adjustments_zero parameters ha hma, hrnd,
    night_portion_half parameters hr] at hI
  simp only [adjust_time_zero, rounded_minute_noRounding] at hI
  rw [truncToInt_half_intCast _ hnn] at hI
  injection hI with hI
  split_ifs at hI with hc
  · exact ⟨Or.inl (by omega), by omega, by omega⟩
  · exact ⟨Or.inr (by omega), by omega, by omega⟩

/-- Claim C1 amended: the strict ordering `fajr < sunrise < dhuhr < asr <
maghrib < isha < midnight < qiyam < fajr_tomorrow` holds for the schedule
built by `Times::new` whenever the parameters apply no per-prayer
adjustments and no rounding, use a non-Moonsighting method with the
middle-of-the-night rule and no Isha interval, and the solar engine's
instants are naturally ordered with adequate gaps; it does NOT hold for
every parameter set, since adjustments can reorder the instants. -/
theorem times_ordering_of_gaps (engine : SolarEngine) (date : DateD)
    (coordinates : Coordinates) (parameters : Parameters)
    (hm : parameters.method ≠ .MoonsightingCommittee)
    (hr : parameters.high_latitude_rule = .MiddleOfTheNight)
    (hi : ¬ 0 < parameters.isha_interval)
    (ha : parameters.adjustments = TimeAdjustment.default)
    (hma : parameters.method_adjustments = TimeAdjustment.default)
    (hrnd : parameters.rounding = .NoRounding)
    (h1 : (engine date.day).time_for_solar_angle (-parameters.fajr_angle) false <
      (engine date.day).sunrise)
    (h2 : 4 ≤ calculate_night (engine date.tomorrow.day) (engine date.day))
    (h3 : (engine date.day).sunrise < (engine date.day).transit)
    (h4 : (engine date.day).transit <
      (engine date.day).afternoon parameters.madhab.shadow)
    (h5 : (engine date.day).afternoon parameters.madhab.shadow <
      (engine date.day).sunset)
    (h6 : (engine date.day).sunset <
      (engine date.day).time_for_solar_angle (-parameters.isha_angle) true)
    (h7 : 2 * ((engine date.day).time_for_solar_angle (-parameters.isha_angle) true -
        (engine date.day).sunset) + 3 ≤
      (engine date.tomorrow.day).time_for_solar_angle (-parameters.fajr_angle) false -
        (engine date.day).sunset) :
    (TimesNew engine date coordinates parameters).isSome = true ∧
    ∀ T, TimesNew engine date coordinates parameters = some T →
      T.fajr < T.sunrise ∧ T.sunrise < T.dhuhr ∧ T.dhuhr < T.asr ∧
      T.asr < T.maghrib ∧ T.maghrib < T.isha ∧ T.isha < T.midnight ∧
      T.midnight < T.qiyam ∧ T.qiyam < T.fajr_tomorrow := by
  have hnn : (0 : ℤ) ≤ calculate_night (engine date.tomorrow.day) (engine date.day) := by
    omega
  obtain ⟨F, hF⟩ : ∃ F, calculate_fajr parameters (engine date.day)
      (calculate_night (engine date.tomorrow.day) (engine date.day)) coordinates
      date = some F := by
    rw [calculate_fajr_not_moonsighting _ _ _ _ _ hm]
    exact ⟨_, rfl⟩
  obtain ⟨I, hI⟩ : ∃ I, calculate_isha parameters (engine date.day)
      (calculate_night (engine date.tomorrow.day) (engine date.day)) coordinates
      date = some I := by
    simp only [calculate_isha, calculate_isha_pre, if_neg hi,
      isha_safe_bound_not_moonsighting _ _ _ _ _ hm, Option.map_some']
    exact ⟨_, rfl⟩
  obtain ⟨FT, hFT⟩ : ∃ FT, calculate_fajr parameters (engine date.tomorrow.day)
      ((engine date.tomorrow.tomorrow.day).sunrise -
        (engine date.tomorrow.day).sunset) coordinates date.tomorrow = some FT := by
    rw [calculate_fajr_not_moonsighting _ _ _ _ _ hm]
    exact ⟨_, rfl⟩
  have hQ0 := calculate_qiyam_eq engine
    (calculate_maghrib (engine date.day) parameters) parameters
    (engine date.tomorrow.day) coordinates date.tomorrow FT hFT
  have hFY : calculate_fajr parameters (engine date.day)
      ((engine date.tomorrow.day).sunrise - (engine date.day).sunset) coordinates
      date = some F := hF
  have hQY0 := calculate_qiyam_eq engine
    (calculate_maghrib (engine date.yesterday.day) parameters) parameters
    (engine date.day) coordinates date F hFY
  have hTN := TimesNew_eq engine date coordinates parameters F I _ _ hF hI hQ0 hQY0
  have hFc := calculate_fajr_cases parameters (engine date.day) _ coordinates date F
    hm hr ha hma hrnd hnn hF
  have hIc := calculate_isha_cases parameters (engine date.day) _ coordinates date I
    hm hr hi ha hma hrnd hnn hI
  have hFTlow := calculate_fajr_lower parameters (engine date.tomorrow.day) _
    coordinates date.tomorrow FT hm ha hma hrnd hFT
  have hM : calculate_maghrib (engine date.day) parameters =
      (engine date.day).sunset := by
    simp only [calculate_maghrib, adjustments_zero parameters ha hma, hrnd,
      ops_adjust_time_zero, rounded_minute_noRounding]
  have hSun : calculate_sunrise (engine date.day) parameters =
      (engine date.day).sunrise := by
    simp only [calculate_sunrise, adjustments_zero parameters ha hma, hrnd,
      adjust_time_zero, rounded_minute_noRounding]
  have hDh : calculate_dhuhr (engine date.day) parameters =
      (engine date.day).transit := by
    simp only [calculate_dhuhr, adjustments_zero parameters ha hma, hrnd,
      adjust_time_zero, rounded_minute_noRounding]
  have hAsr : calculate_asr (engine date.day) parameters =
      (engine date.day).afternoon parameters.madhab.shadow := by
    simp only [calculate_asr, adjustments_zero parameters ha hma, hrnd,
      adjust_time_zero, rounded_minute_noRounding]
  refine ⟨by rw [hTN]; rfl, fun T hT => ?_⟩
  rw [hTN] at hT
  injection hT with hT
  subst hT
  dsimp only
  rw [hM, hSun, hDh, hAsr, hrnd]
  simp only [rounded_minute_noRounding]
  have hNge : (0 : ℤ) ≤ FT - (engine date.day).sunset := by omega
  rw [truncToInt_intCast_div_two _ hNge, truncToInt_intCast_mul_two_thirds _ hNge]
  obtain ⟨hFd, hFlow⟩ := hFc
  obtain ⟨hId, hIub, hIub2⟩ := hIc
  refine ⟨?_, h3, h4, h5, ?_, ?_, ?_, ?_⟩
  · rcases hFd with rfl | rfl
    · omega
    · omega
  · rcases hId with rfl | rfl
    · omega
    · omega
  · omega
  · omega
  · omega

/-- Witness for the amended C1: the concrete engine with plain
no-rounding parameters builds a schedule. -/
theorem times_ordering_of_gaps_witness :
    (TimesNew engineA dateA coordsA params_no_rounding).isSome = true :=
  (times_ordering_of_gaps engineA dateA coordsA params_no_rounding (by decide) rfl
    (by decide) rfl rfl rfl (by decide) (by decide) (by decide) (by decide)
    (by decide) (by decide) (by decide)).1

/-- Claim C8: `days_since_solstice` is total only under a precondition for
southern latitudes: for latitude < 0 and day-of-year below the southern
offset (172, or 173 in a leap year) the `u32` subtraction underflows (the
panic branch, modelled as `none`, is reachable); for latitude < 0 with
day-of-year at or past the offset, and for every latitude ≥ 0, it returns
normally. -/
theorem days_since_solstice_south_underflow (day_of_year year : ℕ) (latitude : ℚ) :
    (latitude < 0 → day_of_year < (if is_leap_year year then 173 else 172) →
      days_since_solstice day_of_year year latitude = none) ∧
    (latitude < 0 → (if is_leap_year year then 173 else 172) ≤ day_of_year →
      (days_since_solstice day_of_year year latitude).isSome = true) ∧
    (0 ≤ latitude → (days_since_solstice day_of_year year latitude).isSome = true) := by
  refine ⟨fun hlat hday => ?_, fun hlat hday => ?_, fun hlat => ?_⟩
  · simp only [days_since_solstice, if_pos hlat, if_pos hday]
  · simp only [days_since_solstice, if_pos hlat, if_neg (not_lt.mpr hday),
      Option.isSome_some]
  · simp only [days_since_solstice, if_neg (not_lt.mpr hlat)]
    split_ifs <;> simp

/-- Witness for C8 at day 100 / 200 of 2015 and latitudes ∓30. -/
theorem days_since_solstice_south_underflow_witness :
    days_since_solstice 100 2015 (-30) = none ∧
    (days_since_solstice 200 2015 (-30)).isSome = true ∧
    (days_since_solstice 100 2015 30).isSome = true :=
  ⟨(days_since_solstice_south_underflow 100 2015 (-30)).1 (by norm_num) (by decide),
   (days_since_solstice_south_underflow 200 2015 (-30)).2.1 (by norm_num) (by decide),
   (days_since_solstice_south_underflow 100 2015 30).2.2 (by norm_num)⟩

/-- Claim C9: `setting_hour` guards with `f64::is_normal`, so an input of
exactly 0.0 fractional hours — and any subnormal input — yields `none`
even though it denotes a valid wall-clock instant, and the `unwrap` at
the `SolarTime::new` call sites then panics (`none` construction). -/
theorem setting_hour_zero_subnormal_none (q : ℚ) (d : ℤ)
    (hq : |q| < 1 / 2 ^ 1022) :
    setting_hour (.finite 0) d = none ∧
    setting_hour (.finite q) d = none ∧
    ∀ th sh : FloatHours, solarTime_new_times ⟨th, .finite q, sh⟩ d = none := by
  have hnorm : (FloatHours.finite q).is_normal = false := by
    simp only [FloatHours.is_normal, decide_eq_false_iff_not, not_and, not_le]
    intro _
    exact hq
  have hq' : setting_hour (.finite q) d = none := by
    simp only [setting_hour, hnorm, Bool.false_eq_true, if_false]
  have h0 : setting_hour (.finite 0) d = none := by
    simp only [setting_hour, FloatHours.is_normal]
    norm_num
  refine ⟨h0, hq', fun th sh => ?_⟩
  rcases hth : setting_hour th d with _ | x <;>
    rcases hsh : setting_hour sh d with _ | y <;>
      simp [solarTime_new_times, hq', hth, hsh]

/-- Witness for C9 at the smallest positive subnormal and a sunrise hour
of exactly 0.0. -/
theorem setting_hour_zero_subnormal_none_witness :
    setting_hour (.finite 0) 16628 = none ∧
    setting_hour (.finite (1 / 2 ^ 1074)) 16628 = none ∧
    solarTime_new_times ⟨.finite 17, .finite (1 / 2 ^ 1074), .finite 24.5⟩ 16628 = none := by
  have hlt : |(1 / 2 ^ 1074 : ℚ)| < 1 / 2 ^ 1022 := by
    rw [abs_of_pos (by positivity)]
    apply one_div_lt_one_div_of_lt (by positivity)
    gcongr
    · norm_num
    · norm_num
  have h := setting_hour_zero_subnormal_none (1 / 2 ^ 1074) 16628 hlt
  exact ⟨h.1, h.2.1, h.2.2 (.finite 17) (.finite 24.5)⟩

/-- Claim C2 counterexample: `setting_hour` does return `none` for a NaN
hour value, but `SolarTime::new` `unwrap`s that result, so solar-time
construction panics (modelled `none`) on non-finite input instead of
propagating "no value" — refuting the claim that construction never
panics in that situation. -/
theorem solar_new_nonfinite_panic_counterexample :
    setting_hour .nan 16628 = none ∧
    solarTime_new_times ⟨.nan, .finite 10, .finite 20⟩ 16628 = none := by
  constructor
  · rfl
  · rfl

/-- Claim C2 amended: a non-finite hour value makes `setting_hour` return
`none` (no crash inside the conversion), but each call site in
`SolarTime::new` `unwrap`s, so construction panics whenever the transit,
sunrise, or sunset hour is non-finite. -/
theorem setting_hour_none_on_nonfinite (h : FloatHours) (d : ℤ)
    (hnf : h = .nan ∨ h = .posInf ∨ h = .negInf) :
    setting_hour h d = none ∧
    ∀ a b : FloatHours,
      solarTime_new_times ⟨h, a, b⟩ d = none ∧
      solarTime_new_times ⟨a, h, b⟩ d = none ∧
      solarTime_new_times ⟨a, b, h⟩ d = none := by
  have hnone : setting_hour h d = none := by
    rcases hnf with rfl | rfl | rfl <;> rfl
  refine ⟨hnone, fun a b => ⟨?_, ?_, ?_⟩⟩
  · rcases ha : setting_hour a d with _ | x <;>
      rcases hb : setting_hour b d with _ | y <;>
        simp [solarTime_new_times, hnone, ha, hb]
  · rcases ha : setting_hour a d with _ | x <;>
      rcases hb : setting_hour b d with _ | y <;>
        simp [solarTime_new_times, hnone, ha, hb]
  · rcases ha : setting_hour a d with _ | x <;>
      rcases hb : setting_hour b d with _ | y <;>
        simp [solarTime_new_times, hnone, ha, hb]

/-- Witness for the amended C2 at a positive-infinity sunset hour. -/
theorem setting_hour_none_on_nonfinite_witness :
    setting_hour .posInf 16628 = none ∧
    solarTime_new_times ⟨.finite 17, .finite 10, .posInf⟩ 16628 = none := by
  have h := setting_hour_none_on_nonfinite .posInf 16628 (Or.inr (Or.inl rfl))
  exact ⟨h.1, (h.2 (.finite 17) (.finite 10)).2.2⟩

/-- Claim C7: `Schedule::build` returns `Err` (never a panic) whenever
any of date, coordinates, or parameters has not been supplied, and `Ok`
of the computed times when all three are present. -/
theorem schedule_build_validation (engine : SolarEngine) (s : Schedule) :
    ((s.date = none ∨ s.coordinates = none ∨ s.params = none) →
      (s.build engine).isOk = false) ∧
    ∀ date coordinates params, s.date = some date → s.coordinates = some coordinates →
      s.params = some params →
      s.build engine = Except.ok (TimesNew engine date coordinates params) := by
  constructor
  · intro hmiss
    rcases hd : s.date with _ | d
    · simp [Schedule.build, hd, Except.isOk, Except.toBool]
    · rcases hc : s.coordinates with _ | c
      · simp [Schedule.build, hd, hc, Except.isOk, Except.toBool]
      · rcases hp : s.params with _ | p
        · simp [Schedule.build, hd, hc, hp, Except.isOk, Except.toBool]
        · rcases hmiss with h | h | h <;> simp_all
  · intro date coordinates params hd hc hp
    simp [Schedule.build, hd, hc, hp]

/-- Witness for C7: building with a date and parameters but no
coordinates is an error; supplying all three yields `Ok`. -/
theorem schedule_build_validation_witness :
    (((Schedule.new.with_date dateA).with_parameters (Parameters.new 18 17)).build
      engineZ).isOk = false ∧
    (((Schedule.new.with_date dateA).with_coordinates coordsA).with_parameters
        (Parameters.new 18 17)).build engineZ =
      Except.ok (TimesNew engineZ dateA coordsA (Parameters.new 18 17)) :=
  ⟨(schedule_build_validation engineZ _).1 (Or.inr (Or.inl rfl)),
   (schedule_build_validation engineZ _).2 dateA coordsA (Parameters.new 18 17)
     rfl rfl rfl⟩

/-- Claim C5: with a positive `isha_interval`, the pre-adjustment Isha is
`sunset + interval` minutes; otherwise it is the earlier of the base
(angle-based or Moonsighting) time and the safe bound, so it is never
later than the safe bound. -/
theorem calculate_isha_interval_or_safe_bound (parameters : Parameters)
    (solar_time : SolarTimeI) (night : ℤ) (coordinates : Coordinates)
    (prayer_date : DateD) :
    (0 < parameters.isha_interval →
      calculate_isha_pre parameters solar_time night coordinates prayer_date =
        some (solar_time.sunset + parameters.isha_interval * 60)) ∧
    (¬ 0 < parameters.isha_interval →
      ∀ v s, calculate_isha_pre parameters solar_time night coordinates prayer_date =
          some v →
        isha_safe_bound parameters solar_time night coordinates prayer_date = some s →
        v ≤ s ∧ (v = s ∨ v = isha_base_time parameters solar_time night coordinates)) := by
  constructor
  · intro hi
    simp [calculate_isha_pre, hi]
  · intro hi v s hv hs
    simp only [calculate_isha_pre, if_neg hi, hs, Option.map_some'] at hv
    by_cases hlt : s < isha_base_time parameters solar_time night coordinates
    · rw [if_pos hlt] at hv
      injection hv with hv
      subst hv
      exact ⟨le_refl _, Or.inl rfl⟩
    · rw [if_neg hlt] at hv
      injection hv with hv
      subst hv
      exact ⟨not_lt.mp hlt, Or.inr rfl⟩

/-- Witness for C5: the 90-minute interval branch and the safe-bound
branch on the concrete sample (`night` = 10000 s, safe bound 55000,
angle-based time 60000). -/
theorem calculate_isha_interval_or_safe_bound_witness :
    calculate_isha_pre params_interval90 solarW 10000 coordsA dateA =
      some (50000 + 90 * 60) ∧
    calculate_isha_pre params_no_rounding solarW 10000 coordsA dateA = some 55000 ∧
    (55000 : ℤ) ≤ 55000 := by
  have hs : isha_safe_bound params_no_rounding solarW 10000 coordsA dateA =
      some 55000 := by
    simp only [isha_safe_bound]
    rw [if_neg (by decide : ¬ params_no_rounding.method = Method.MoonsightingCommittee)]
    norm_num [params_no_rounding, Parameters.new, Parameters.night_portions, solarW,
      truncToInt_eq]
  have hbase : isha_base_time params_no_rounding solarW 10000 coordsA = 60000 := by
    simp only [isha_base_time]
    rw [if_neg (by simp [params_no_rounding, Parameters.new])]
    simp [solarW]
  have hv : calculate_isha_pre params_no_rounding solarW 10000 coordsA dateA =
      some 55000 := by
    simp only [calculate_isha_pre]
    rw [if_neg (by decide : ¬ (0 : ℤ) < params_no_rounding.isha_interval), hs]
    simp only [Option.map_some']
    rw [hbase]
    norm_num
  refine ⟨?_, hv, ?_⟩
  · exact (calculate_isha_interval_or_safe_bound params_interval90 solarW 10000
      coordsA dateA).1 (by decide)
  · exact (((calculate_isha_interval_or_safe_bound params_no_rounding solarW 10000
      coordsA dateA).2 (by decide)) 55000 55000 hv hs).1

end Salah
